import Mathlib

/-!
Verification of the one-sample z-test evaluator described in the
repository's specification against the computation carried out in
`src/index.ipynb`.

The notebook computes, inline and without named functions:
  z    = (x_bar - mu) / (sigma / sqrt(n))          (first code cell)
  cdf  = stats.norm.cdf(z)                          (fifth code cell)
  pval = 1 - stats.norm.cdf(z)                      (seventh code cell)
and states the decision rule "p < alpha means reject the null" in
markdown.  The standard-normal cumulative distribution function is an
external library primitive, so it is treated here as an abstract
function `Phi : ℝ → ℝ` together with the mathematical properties a
standard-normal CDF satisfies (monotonicity, reflection symmetry about
0, and range inside [0, 1]).
-/

namespace ZTest

/-- Tail direction of the test, per the spec's enumerated parameter. -/
inductive Tail where
  | UPPER
  | LOWER
  | TWO_SIDED
deriving DecidableEq, Repr

/-- The single error kind of the evaluator. -/
inductive ZError where
  | InvalidParameter
deriving DecidableEq, Repr

/-- Modelled from the spec: the notebook computes
`z = (x_bar - mu)/(sigma/sqrt(n))` inline in its first code cell with no
named function and no input validation; the `InvalidParameter` guard on
`population_std_dev > 0` and `sample_size > 0` is missing from the
source and follows the spec's constraints (sections 4.1 and 7).
The arithmetic expression itself is the notebook's. -/
noncomputable def compute_z_statistic (sample_mean population_mean population_std_dev : ℝ)
    (sample_size : ℕ) : Except ZError ℝ :=
  if 0 < population_std_dev ∧ 0 < sample_size then
    Except.ok ((sample_mean - population_mean) / (population_std_dev / Real.sqrt sample_size))
  else
    Except.error ZError.InvalidParameter

/-- Modelled from the spec: the notebook only evaluates the upper tail,
`pval = 1 - stats.norm.cdf(z)`, with no named function, no clamping and
no lower/two-sided variants; the `LOWER` and `TWO_SIDED` branches and
the clamp to [0, 1] follow the spec's description of `compute_p_value`
(section 4.1).  `Phi` is the external standard-normal CDF primitive. -/
noncomputable def compute_p_value (Phi : ℝ → ℝ) (z : ℝ) (tail : Tail) : ℝ :=
  max 0 (min 1 (match tail with
    | Tail.UPPER => 1 - Phi z
    | Tail.LOWER => Phi z
    | Tail.TWO_SIDED => 2 * (1 - Phi |z|)))

/-- Modelled from the spec: the notebook states the decision rule only in
markdown ("the p-value is larger than the alpha of 0.05 ... fail to
reject the null hypothesis"); this definition follows the spec's
`decide` (section 4.1): reject iff `p_value < alpha`, with the
`InvalidParameter` guard on `alpha` in the open interval (0, 1). -/
def decide (p_value alpha : ℚ) : Except ZError Bool :=
  if 0 < alpha ∧ alpha < 1 then
    Except.ok (Decidable.decide (p_value < alpha))
  else
    Except.error ZError.InvalidParameter

/-- The mathematical properties of a standard-normal CDF used by the
spec: monotone nondecreasing, reflection symmetry about 0, and values
in [0, 1].  The library implementation of `Phi` itself is out of scope
for the spec. -/
def IsStdNormalCDF (Phi : ℝ → ℝ) : Prop :=
  Monotone Phi ∧ (∀ x, Phi (-x) = 1 - Phi x) ∧ (∀ x, 0 ≤ Phi x ∧ Phi x ≤ 1)

/-- A concrete function with all the `IsStdNormalCDF` properties, used to
instantiate the abstract CDF at concrete inputs: the ramp
`x ↦ clamp((x+1)/2)`. -/
noncomputable def rampCDF (x : ℝ) : ℝ :=
  max 0 (min 1 ((x + 1) / 2))

theorem rampCDF_eval (x : ℝ) (h1 : -1 ≤ x) (h2 : x ≤ 1) : rampCDF x = (x + 1) / 2 := by
  unfold rampCDF
  rw [min_eq_right (by linarith), max_eq_right (by linarith)]

theorem rampCDF_isCDF : IsStdNormalCDF rampCDF := by
  refine ⟨?_, ?_, ?_⟩
  · have h : Monotone fun x : ℝ => (x + 1) / 2 :=
      (monotone_id.add_const 1).div_const (by norm_num)
    exact monotone_const.max (monotone_const.min h)
  · intro x
    unfold rampCDF
    have hx : (-x + 1) / 2 = 1 - (x + 1) / 2 := by ring
    rw [hx]
    rcases le_total ((x + 1) / 2) 0 with h | h
    · rw [min_eq_left (show (1 : ℝ) ≤ 1 - (x + 1) / 2 by linarith),
        max_eq_right (show (0 : ℝ) ≤ 1 by norm_num),
        min_eq_right (show (x + 1) / 2 ≤ 1 by linarith),
        max_eq_left h]
      norm_num
    · rcases le_total ((x + 1) / 2) 1 with h' | h'
      · rw [min_eq_right (show 1 - (x + 1) / 2 ≤ 1 by linarith),
          max_eq_right (show (0 : ℝ) ≤ 1 - (x + 1) / 2 by linarith),
          min_eq_right h', max_eq_right h]
      · rw [min_eq_right (show 1 - (x + 1) / 2 ≤ 1 by linarith),
          max_eq_left (show 1 - (x + 1) / 2 ≤ 0 by linarith),
          min_eq_left h', max_eq_right (show (0 : ℝ) ≤ 1 by norm_num)]
        norm_num
  · intro x
    constructor
    · exact le_max_left 0 _
    · exact max_le (by norm_num) (min_le_left 1 _)

end ZTest

namespace ZTest

/-- C1: `compute_z_statistic(sample_mean, population_mean,
population_std_dev, sample_size)` returns
`(sample_mean - population_mean) / (population_std_dev / sqrt(sample_size))`
for every input with `population_std_dev > 0` and `sample_size > 0`; in
particular `compute_z_statistic(103, 100, 16, 40)` is approximately
`1.1858541225631423`, within `1e-15`. -/
theorem C1_z_statistic_formula :
    (∀ (x μ σ : ℝ) (n : ℕ), 0 < σ → 0 < n →
      compute_z_statistic x μ σ n =
        Except.ok ((x - μ) / (σ / Real.sqrt n))) ∧
    (∀ z : ℝ, compute_z_statistic 103 100 16 40 = Except.ok z →
      |z - 1.1858541225631423| < 1e-15) := by
  constructor
  · intro x μ σ n hσ hn
    rw [compute_z_statistic, if_pos ⟨hσ, hn⟩]
  · intro z hz
    rw [compute_z_statistic, if_pos ⟨by norm_num, by norm_num⟩] at hz
    have hz' : ((103 : ℝ) - 100) / (16 / Real.sqrt (40 : ℕ)) = z := Except.ok.inj hz
    have hlo : (6.32455532033675866 : ℝ) < Real.sqrt (40 : ℕ) := by
      rw [show ((40 : ℕ) : ℝ) = 40 by norm_num, Real.lt_sqrt (by norm_num)]
      norm_num
    have hhi : Real.sqrt (40 : ℕ) < 6.32455532033675867 := by
      rw [show ((40 : ℕ) : ℝ) = 40 by norm_num, Real.sqrt_lt' (by norm_num)]
      norm_num
    have hpos : (0 : ℝ) < Real.sqrt (40 : ℕ) := lt_trans (by norm_num) hlo
    have hz'' : z = 3 * Real.sqrt (40 : ℕ) / 16 := by
      rw [← hz']
      rw [show (103 : ℝ) - 100 = 3 by norm_num, div_div_eq_mul_div]
    rw [hz'', abs_lt]
    constructor <;> linarith

/-- Witness for C1 at the notebook's concrete inputs. -/
theorem C1_witness :
    |(103 - 100 : ℝ) / (16 / Real.sqrt (40 : ℕ)) - 1.1858541225631423| < 1e-15 :=
  C1_z_statistic_formula.2 _
    (C1_z_statistic_formula.1 103 100 16 40 (by norm_num) (by norm_num))

end ZTest

namespace ZTest

theorem compute_p_value_UPPER (Phi : ℝ → ℝ) (z : ℝ) :
    compute_p_value Phi z Tail.UPPER = max 0 (min 1 (1 - Phi z)) := rfl

theorem compute_p_value_LOWER (Phi : ℝ → ℝ) (z : ℝ) :
    compute_p_value Phi z Tail.LOWER = max 0 (min 1 (Phi z)) := rfl

theorem compute_p_value_TWO_SIDED (Phi : ℝ → ℝ) (z : ℝ) :
    compute_p_value Phi z Tail.TWO_SIDED = max 0 (min 1 (2 * (1 - Phi |z|))) := rfl

theorem clamp_of_mem (p : ℝ) (h0 : 0 ≤ p) (h1 : p ≤ 1) : max 0 (min 1 p) = p := by
  rw [min_eq_right h1, max_eq_right h0]

/-- C2: for every finite z, `compute_p_value(z, UPPER)` returns `1 − Φ(z)`
where Φ is the standard-normal CDF; in particular when the external CDF
returns `Φ(z) = 0.8821600432854813` (the value the notebook printed for
`z ≈ 1.1858541225631423`), the p-value is approximately
`0.11783995671451875`, within `1e-15`. -/
theorem C2_upper_p_value (Phi : ℝ → ℝ) (hPhi : IsStdNormalCDF Phi) :
    (∀ z, compute_p_value Phi z Tail.UPPER = 1 - Phi z) ∧
    (∀ z, Phi z = 0.8821600432854813 →
      |compute_p_value Phi z Tail.UPPER - 0.11783995671451875| < 1e-15) := by
  have key : ∀ z, compute_p_value Phi z Tail.UPPER = 1 - Phi z := by
    intro z
    have h := hPhi.2.2 z
    rw [compute_p_value_UPPER]
    exact clamp_of_mem _ (by linarith [h.2]) (by linarith [h.1])
  refine ⟨key, ?_⟩
  intro z hz
  rw [key z, hz, abs_lt]
  constructor <;> norm_num

/-- Witness for C2 with the ramp CDF, whose value at 0.7643200865709626
is exactly 0.8821600432854813. -/
theorem C2_witness :
    |compute_p_value rampCDF 0.7643200865709626 Tail.UPPER - 0.11783995671451875| < 1e-15 :=
  (C2_upper_p_value rampCDF rampCDF_isCDF).2 0.7643200865709626
    (by rw [rampCDF_eval 0.7643200865709626 (by norm_num) (by norm_num)]; norm_num)

/-- C3: `decide(p_value, alpha)` returns true (reject the null) iff
`p_value < alpha` and false otherwise, ties at `p_value = alpha`
retaining the null; in particular `decide(0.11784, 0.05)` returns
false. -/
theorem C3_decide_rule :
    (∀ p α : ℚ, 0 < α → α < 1 →
      ((decide p α = Except.ok true ↔ p < α) ∧
       (decide p α = Except.ok false ↔ α ≤ p))) ∧
    decide 0.11784 0.05 = Except.ok false := by
  constructor
  · intro p α h1 h2
    rw [ZTest.decide, if_pos ⟨h1, h2⟩]
    simp only [Except.ok.injEq, decide_eq_true_eq, decide_eq_false_iff_not, not_lt]
    exact ⟨trivial, trivial⟩
  · rw [ZTest.decide, if_pos (by norm_num : (0 : ℚ) < 0.05 ∧ (0.05 : ℚ) < 1)]
    have h : ¬ ((0.11784 : ℚ) < 0.05) := by norm_num
    simp [h]

/-- Witness for C3 at concrete inputs with the hypotheses discharged. -/
theorem C3_witness : decide (1/2) (1/4) = Except.ok false ↔ (1/4 : ℚ) ≤ 1/2 :=
  (C3_decide_rule.1 (1/2) (1/4) (by norm_num) (by norm_num)).2

/-- C4: for every tail and every z, the value returned by
`compute_p_value` lies in the closed interval [0, 1]: the clamp keeps
any overshoot past exact 0 or 1 from escaping. -/
theorem C4_p_value_in_unit_interval :
    ∀ (Phi : ℝ → ℝ) (z : ℝ) (t : Tail),
      0 ≤ compute_p_value Phi z t ∧ compute_p_value Phi z t ≤ 1 := by
  intro Phi z t
  unfold compute_p_value
  exact ⟨le_max_left 0 _, max_le (by norm_num) (min_le_left 1 _)⟩

/-- C5: `compute_z_statistic` fails with `InvalidParameter`, producing no
result, whenever `population_std_dev ≤ 0` or `sample_size = 0`. -/
theorem C5_invalid_z_parameters :
    ∀ (x μ σ : ℝ) (n : ℕ), σ ≤ 0 ∨ n = 0 →
      compute_z_statistic x μ σ n = Except.error ZError.InvalidParameter := by
  intro x μ σ n h
  rw [compute_z_statistic, if_neg]
  rintro ⟨h1, h2⟩
  rcases h with h | h
  · exact absurd h1 (not_lt.mpr h)
  · rw [h] at h2
    exact lt_irrefl 0 h2

/-- Witness for C5 at `population_std_dev = 0` and at `sample_size = 0`. -/
theorem C5_witness :
    compute_z_statistic 103 100 0 40 = Except.error ZError.InvalidParameter ∧
    compute_z_statistic 103 100 16 0 = Except.error ZError.InvalidParameter :=
  ⟨C5_invalid_z_parameters 103 100 0 40 (Or.inl le_rfl),
   C5_invalid_z_parameters 103 100 16 0 (Or.inr rfl)⟩

/-- C6: `decide` fails with `InvalidParameter` whenever alpha is outside
the open interval (0, 1), the boundary values 0 and 1 included. -/
theorem C6_invalid_alpha :
    ∀ p α : ℚ, α ≤ 0 ∨ 1 ≤ α →
      decide p α = Except.error ZError.InvalidParameter := by
  intro p α h
  rw [ZTest.decide, if_neg]
  rintro ⟨h1, h2⟩
  rcases h with h | h
  · exact absurd h1 (not_lt.mpr h)
  · exact absurd h2 (not_lt.mpr h)

/-- Witness for C6 at alpha equal to 0, 1, and a negative value. -/
theorem C6_witness :
    decide 0.11784 0 = Except.error ZError.InvalidParameter ∧
    decide 0.11784 1 = Except.error ZError.InvalidParameter ∧
    decide 0.11784 (-1/2) = Except.error ZError.InvalidParameter :=
  ⟨C6_invalid_alpha _ 0 (Or.inl le_rfl),
   C6_invalid_alpha _ 1 (Or.inr le_rfl),
   C6_invalid_alpha _ (-1/2) (Or.inl (by norm_num))⟩

end ZTest

namespace ZTest

theorem compute_z_statistic_eq_ok (x μ σ : ℝ) (n : ℕ) (hσ : 0 < σ) (hn : 0 < n) :
    compute_z_statistic x μ σ n = Except.ok ((x - μ) / (σ / Real.sqrt n)) := by
  rw [compute_z_statistic, if_pos ⟨hσ, hn⟩]

theorem z_val_of_ok (x μ σ : ℝ) (n : ℕ) (z : ℝ) (hσ : 0 < σ) (hn : 0 < n)
    (hz : compute_z_statistic x μ σ n = Except.ok z) :
    z = (x - μ) / (σ / Real.sqrt n) :=
  (Except.ok.inj ((compute_z_statistic_eq_ok x μ σ n hσ hn).symm.trans hz)).symm

theorem abs_z_eq (x μ σ : ℝ) (n : ℕ) (hσ : 0 < σ) :
    |(x - μ) / (σ / Real.sqrt n)| = |x - μ| * Real.sqrt n / σ := by
  rw [abs_div, abs_div, abs_of_pos hσ, abs_of_nonneg (Real.sqrt_nonneg _),
    div_div_eq_mul_div]

/-- C7 (counterexample): the claimed identity
`compute_p_value(z, LOWER) + compute_p_value(−z, UPPER) = 1` fails for a
function with all the standard-normal CDF properties at z = 0.5: both
summands equal Φ(0.5), so the sum is 2·Φ(0.5) = 1.5 ≠ 1. -/
theorem C7_counterexample :
    IsStdNormalCDF rampCDF ∧
    compute_p_value rampCDF 0.5 Tail.LOWER +
      compute_p_value rampCDF (-0.5) Tail.UPPER ≠ 1 := by
  refine ⟨rampCDF_isCDF, ?_⟩
  rw [compute_p_value_LOWER, compute_p_value_UPPER,
    rampCDF_eval 0.5 (by norm_num) (by norm_num),
    rampCDF_eval (-0.5) (by norm_num) (by norm_num),
    clamp_of_mem _ (by norm_num) (by norm_num),
    clamp_of_mem _ (by norm_num) (by norm_num)]
  norm_num

/-- C7 (amended): the reflection symmetry of the standard normal about 0
gives `compute_p_value(z, LOWER) = compute_p_value(−z, UPPER)` for every
z; equivalently the two tail p-values at the same z sum to 1:
`compute_p_value(z, LOWER) + compute_p_value(z, UPPER) = 1`. -/
theorem C7_reflection (Phi : ℝ → ℝ) (hPhi : IsStdNormalCDF Phi) (z : ℝ) :
    compute_p_value Phi z Tail.LOWER = compute_p_value Phi (-z) Tail.UPPER ∧
    compute_p_value Phi z Tail.LOWER + compute_p_value Phi z Tail.UPPER = 1 := by
  have hr := hPhi.2.2 z
  have hs := hPhi.2.1 z
  constructor
  · rw [compute_p_value_LOWER, compute_p_value_UPPER, hs,
      show (1 : ℝ) - (1 - Phi z) = Phi z by ring]
  · rw [compute_p_value_LOWER, compute_p_value_UPPER,
      clamp_of_mem _ hr.1 hr.2,
      clamp_of_mem _ (by linarith [hr.2]) (by linarith [hr.1])]
    ring

/-- Witness for the amended C7 at the ramp CDF and z = 0. -/
theorem C7_witness :
    compute_p_value rampCDF 0 Tail.LOWER = compute_p_value rampCDF (-0) Tail.UPPER ∧
    compute_p_value rampCDF 0 Tail.LOWER + compute_p_value rampCDF 0 Tail.UPPER = 1 :=
  C7_reflection rampCDF rampCDF_isCDF 0

/-- C8: the two-sided p-value equals twice the upper-tail p-value at |z|,
clamped at 1: `compute_p_value(z, TWO_SIDED) = min 1 (2 ×
compute_p_value(|z|, UPPER))`, i.e. 2 × (1 − Φ(|z|)) clamped. -/
theorem C8_two_sided (Phi : ℝ → ℝ) (hPhi : IsStdNormalCDF Phi) (z : ℝ) :
    compute_p_value Phi z Tail.TWO_SIDED =
      min 1 (2 * compute_p_value Phi |z| Tail.UPPER) := by
  have hr := hPhi.2.2 |z|
  rw [compute_p_value_TWO_SIDED, compute_p_value_UPPER,
    clamp_of_mem (1 - Phi |z|) (by linarith [hr.2]) (by linarith [hr.1]),
    max_eq_right (le_min (by norm_num) (by linarith [hr.2]))]

/-- Witness for C8 at the ramp CDF and z = 0. -/
theorem C8_witness :
    compute_p_value rampCDF 0 Tail.TWO_SIDED =
      min 1 (2 * compute_p_value rampCDF |(0 : ℝ)| Tail.UPPER) :=
  C8_two_sided rampCDF rampCDF_isCDF 0

/-- C9 (counterexample): the claim says the z-statistic is "negative
otherwise", i.e. negative whenever the sample mean does not exceed the
population mean; but at equal means the notebook's formula yields
exactly 0, which is not negative. -/
theorem C9_counterexample :
    compute_z_statistic 100 100 16 40 = Except.ok 0 ∧ ¬ ((0 : ℝ) < 0) := by
  constructor
  · rw [compute_z_statistic, if_pos ⟨by norm_num, by norm_num⟩,
      show (100 : ℝ) - 100 = 0 by norm_num, zero_div]
  · exact lt_irrefl 0

/-- C9 (amended): for valid inputs the z-statistic is positive when the
sample mean exceeds the population mean, negative when it is below it,
and zero when they are equal; its magnitude grows with the sample size
(through sqrt(sample_size)) and with the absolute mean difference, and
shrinks as the population standard deviation grows. -/
theorem C9_sign_and_magnitude :
    (∀ (x μ σ : ℝ) (n : ℕ) (z : ℝ), 0 < σ → 0 < n →
        compute_z_statistic x μ σ n = Except.ok z →
        ((μ < x → 0 < z) ∧ (x < μ → z < 0) ∧ (x = μ → z = 0))) ∧
    (∀ (x μ σ : ℝ) (n1 n2 : ℕ) (z1 z2 : ℝ), 0 < σ → 0 < n1 → n1 ≤ n2 →
        compute_z_statistic x μ σ n1 = Except.ok z1 →
        compute_z_statistic x μ σ n2 = Except.ok z2 →
        |z1| ≤ |z2|) ∧
    (∀ (x1 x2 μ σ : ℝ) (n : ℕ) (z1 z2 : ℝ), 0 < σ → 0 < n →
        |x1 - μ| ≤ |x2 - μ| →
        compute_z_statistic x1 μ σ n = Except.ok z1 →
        compute_z_statistic x2 μ σ n = Except.ok z2 →
        |z1| ≤ |z2|) ∧
    (∀ (x μ σ1 σ2 : ℝ) (n : ℕ) (z1 z2 : ℝ), 0 < σ1 → σ1 ≤ σ2 → 0 < n →
        compute_z_statistic x μ σ1 n = Except.ok z1 →
        compute_z_statistic x μ σ2 n = Except.ok z2 →
        |z2| ≤ |z1|) := by
  refine ⟨?_, ?_, ?_, ?_⟩
  · intro x μ σ n z hσ hn hz
    have hzv := z_val_of_ok x μ σ n z hσ hn hz
    have hd : 0 < σ / Real.sqrt n := by
      apply div_pos hσ
      apply Real.sqrt_pos.mpr
      exact_mod_cast hn
    refine ⟨fun h => ?_, fun h => ?_, fun h => ?_⟩
    · rw [hzv]
      exact div_pos (by linarith) hd
    · rw [hzv]
      exact div_neg_of_neg_of_pos (by linarith) hd
    · rw [hzv, h, sub_self, zero_div]
  · intro x μ σ n1 n2 z1 z2 hσ hn1 hle h1 h2
    have hn2 : 0 < n2 := lt_of_lt_of_le hn1 hle
    rw [z_val_of_ok x μ σ n1 z1 hσ hn1 h1, z_val_of_ok x μ σ n2 z2 hσ hn2 h2,
      abs_z_eq x μ σ n1 hσ, abs_z_eq x μ σ n2 hσ]
    gcongr
  · intro x1 x2 μ σ n z1 z2 hσ hn hdle h1 h2
    rw [z_val_of_ok x1 μ σ n z1 hσ hn h1, z_val_of_ok x2 μ σ n z2 hσ hn h2,
      abs_z_eq x1 μ σ n hσ, abs_z_eq x2 μ σ n hσ]
    gcongr
  · intro x μ σ1 σ2 n z1 z2 hσ1 hle hn h1 h2
    have hσ2 : 0 < σ2 := lt_of_lt_of_le hσ1 hle
    rw [z_val_of_ok x μ σ1 n z1 hσ1 hn h1, z_val_of_ok x μ σ2 n z2 hσ2 hn h2,
      abs_z_eq x μ σ1 n hσ1, abs_z_eq x μ σ2 n hσ2]
    gcongr

/-- Witness for the amended C9 at the notebook's inputs: z is positive
there since 103 exceeds 100. -/
theorem C9_witness :
    0 < (103 - 100 : ℝ) / (16 / Real.sqrt (40 : ℕ)) :=
  (C9_sign_and_magnitude.1 103 100 16 40
      ((103 - 100 : ℝ) / (16 / Real.sqrt (40 : ℕ)))
      (by norm_num) (by norm_num)
      (compute_z_statistic_eq_ok 103 100 16 40 (by norm_num) (by norm_num))).1
    (by norm_num)

/-- C10: the upper-tail p-value is antitone in the z-statistic: when
z1 ≤ z2, `compute_p_value(z2, UPPER) ≤ compute_p_value(z1, UPPER)`,
because the p-value is 1 − Φ(z) clamped and Φ is monotone
nondecreasing. -/
theorem C10_upper_antitone (Phi : ℝ → ℝ) (hPhi : IsStdNormalCDF Phi) :
    ∀ z1 z2 : ℝ, z1 ≤ z2 →
      compute_p_value Phi z2 Tail.UPPER ≤ compute_p_value Phi z1 Tail.UPPER := by
  intro z1 z2 h
  rw [compute_p_value_UPPER, compute_p_value_UPPER]
  have hm := hPhi.1 h
  exact max_le_max le_rfl (min_le_min le_rfl (by linarith))

/-- Witness for C10 at the ramp CDF with z1 = 0 and z2 = 1. -/
theorem C10_witness :
    compute_p_value rampCDF 1 Tail.UPPER ≤ compute_p_value rampCDF 0 Tail.UPPER :=
  C10_upper_antitone rampCDF rampCDF_isCDF 0 1 (by norm_num)

end ZTest
